import Mathlib

/-!
Verification of the ShoreSquad weather module (`js/app.js`, class `WeatherManager`)
against its natural-language specification.

The embedding models the JavaScript source shallowly:
* JS strings are Lean `String`s; `text.includes(sub)` is an infix check on the
  character list; `text.toLowerCase()` is `Char.toLower` mapped over the characters.
* `Date.now()` timestamps are `Nat` milliseconds, injected as a parameter.
* The network transport (`fetch` + `response.ok` + `response.json()`) is injected
  as `Option NEAData`: `none` models any transport failure (network error,
  non-2xx status, malformed JSON body) that throws before parsing; `some data`
  models a 2xx response whose body parsed to `data`.
* Locale date formatting (`formatDay`, `toLocaleDateString`) depends on the real
  wall clock and locale tables, so the per-index day and date strings are
  injected as functions `dayOf dateOf : Nat → String`.
* DOM rendering is modelled as the list of per-card contents the template
  interpolates (`renderWeather`), or the single fallback placeholder card
  (`renderWeatherFallback`), collected in `RenderOutput`.
* Screen-reader announcements are modelled as an `Option String` notification.
-/

namespace ShoreSquad

/-- Infix test on character lists: `infixCheck sub l = true` iff `sub` occurs
contiguously inside `l`. This is the semantics of JS `String.prototype.includes`. -/
def infixCheck (sub : List Char) : List Char → Bool
  | [] => sub.isEmpty
  | c :: rest => sub.isPrefixOf (c :: rest) || infixCheck sub rest

/-- JS `s.toLowerCase()` viewed as a character list (per-character lowercasing). -/
def toLowerChars (s : String) : List Char := s.data.map Char.toLower

/-- JS `text.includes(sub)` where `text` is an already-lowercased character list. -/
def includes (sub : String) (text : List Char) : Bool := infixCheck sub.data text

/-- `CONFIG.WEATHER_CACHE_TIME` (10 minutes in milliseconds). -/
def WEATHER_CACHE_TIME : Nat := 600000

/-- `CONFIG.DEBOUNCE_DELAY` (milliseconds). -/
def DEBOUNCE_DELAY : Nat := 300

/-- `WeatherManager.mapWeatherCondition`: first-match keyword mapping from the raw
forecast text to a condition label. The source checks, in order: sunny/fine,
partly, cloudy/overcast, rain, thunder/storm, showers, wind; otherwise it
returns the original text. -/
def mapWeatherCondition (forecast : String) : String :=
  if includes "sunny" (toLowerChars forecast) || includes "fine" (toLowerChars forecast) then "Sunny"
  else if includes "partly" (toLowerChars forecast) then "Partly Cloudy"
  else if includes "cloudy" (toLowerChars forecast) || includes "overcast" (toLowerChars forecast) then "Cloudy"
  else if includes "rain" (toLowerChars forecast) then "Rainy"
  else if includes "thunder" (toLowerChars forecast) || includes "storm" (toLowerChars forecast) then "Thundery"
  else if includes "showers" (toLowerChars forecast) then "Showers"
  else if includes "wind" (toLowerChars forecast) then "Windy"
  else forecast

/-- `WeatherManager.getWeatherEmoji`: first-match keyword mapping from the raw
forecast text to an emoji. The source checks, in order: sunny/fine, partly,
cloudy/overcast, thunder/storm, showers, rain, wind; otherwise a default glyph.
Note the middle of this rule list is ordered differently from
`mapWeatherCondition` (thunder/storm and showers come before rain here). -/
def getWeatherEmoji (forecast : String) : String :=
  if includes "sunny" (toLowerChars forecast) || includes "fine" (toLowerChars forecast) then "☀️"
  else if includes "partly" (toLowerChars forecast) then "⛅"
  else if includes "cloudy" (toLowerChars forecast) || includes "overcast" (toLowerChars forecast) then "☁️"
  else if includes "thunder" (toLowerChars forecast) || includes "storm" (toLowerChars forecast) then "⛈️"
  else if includes "showers" (toLowerChars forecast) then "🌧️"
  else if includes "rain" (toLowerChars forecast) then "🌧️"
  else if includes "wind" (toLowerChars forecast) then "💨"
  else "🌤️"

/-- One display record produced for a forecast day (the object literal built in
`parseNEAResponse` / hardcoded in `getSimulatedWeather`). -/
structure ForecastDay where
  day : String
  date : String
  condition : String
  forecast : String
  emoji : String
deriving DecidableEq, Repr

/-- One per-area entry of the NEA response (`{ area, forecast }`). -/
structure AreaForecast where
  area : String
  forecast : String
deriving DecidableEq, Repr

/-- One element of the NEA response's `items` array. -/
structure NEAItem where
  forecasts : List AreaForecast
deriving DecidableEq, Repr

/-- The parsed NEA response body. `items` is `none` when the JSON object has no
`items` key (JS `!data.items`). -/
structure NEAData where
  items : Option (List NEAItem)
deriving DecidableEq, Repr

/-- `WeatherManager.getSimulatedWeather`: the hardcoded fallback forecast.
Fields in order: day, date, condition, forecast, emoji. -/
def getSimulatedWeather : List ForecastDay :=
  [ ⟨"Today", "Dec 2", "Sunny", "Sunny", "☀️"⟩,
    ⟨"Tomorrow", "Dec 3", "Partly Cloudy", "Partly cloudy", "⛅"⟩,
    ⟨"Wednesday", "Dec 4", "Thundery", "Thundery showers", "⛈️"⟩,
    ⟨"Thursday", "Dec 5", "Rainy", "Rainy", "🌧️"⟩ ]

/-- `WeatherManager.parseNEAResponse`: if `items` is missing or empty, return the
simulated forecast; otherwise map the first item's first four per-day entries to
display records. `dayOf`/`dateOf` inject `formatDay` and `toLocaleDateString`
applied to the current date plus the entry's index. -/
def parseNEAResponse (dayOf dateOf : Nat → String) (data : NEAData) : List ForecastDay :=
  match data.items with
  | none => getSimulatedWeather
  | some [] => getSimulatedWeather
  | some (item :: _) =>
      (item.forecasts.take 4).enum.map fun p =>
        ⟨dayOf p.1, dateOf p.1, mapWeatherCondition p.2.forecast, p.2.forecast,
          getWeatherEmoji p.2.forecast⟩

/-- The interpolated content of one weather card produced by the template in
`WeatherManager.renderWeather`. -/
structure RenderedCard where
  ariaLabel : String
  heading : String
  dateText : String
  emojiText : String
  conditionText : String
  forecastLine : String
deriving DecidableEq, Repr

/-- The last line of the card template is the literal text
`\x7b\x7b weather.forecast \x7d\x7d`: a JS template literal interpolates only
`\x24\x7b...\x7d` expressions, so this placeholder is emitted verbatim. -/
def forecastPlaceholder : String := "\x7b\x7b weather.forecast \x7d\x7d"

/-- `WeatherManager.renderWeather`: one card per record; the aria label, heading,
date, emoji and condition are interpolated from the record, while the forecast
line is the literal placeholder text. -/
def renderWeather (data : List ForecastDay) : List RenderedCard :=
  data.map fun w =>
    ⟨"Weather for " ++ w.day, w.day, w.date, w.emoji, w.condition, forecastPlaceholder⟩

/-- What a completed `fetchWeather` call put into the weather grid: either the
per-day cards of `renderWeather`, or the single placeholder card of
`renderWeatherFallback` ("Unable to fetch live weather data…"). -/
inductive RenderOutput where
  | cards (cs : List RenderedCard)
  | fallbackMessage
deriving DecidableEq, Repr

/-- The manager's mutable state: `this.weatherCache` (`null` initially) and
`this.lastFetchTime` (0 initially). -/
structure WeatherState where
  weatherCache : Option (List ForecastDay)
  lastFetchTime : Nat
deriving DecidableEq, Repr

/-- `announceToScreenReader` message on the success path. -/
def successMsg : String := "Weather forecast updated"

/-- `announceToScreenReader` message on the catch path. -/
def degradedMsg : String := "Could not load weather data. Showing cached data."

/-- The observable outcome of one `fetchWeather` execution: the state after the
call, what was rendered, the screen-reader notification (if any), and how many
network requests were issued (0 or 1). -/
structure FetchResult where
  state : WeatherState
  rendered : RenderOutput
  notification : Option String
  networkRequests : Nat
deriving DecidableEq, Repr

/-- The part of `WeatherManager.fetchWeather` after the cache-freshness guard:
issue the fetch; on a 2xx body, parse, overwrite the cache with the parsed data
and the captured `now`, render it and announce success; on any thrown error,
announce the degraded message and render the stale cache if present, else the
fallback placeholder. -/
def fetchAndRender (now : Nat) (transport : Option NEAData) (dayOf dateOf : Nat → String)
    (s : WeatherState) : FetchResult :=
  match transport with
  | some data =>
      let weatherData := parseNEAResponse dayOf dateOf data
      ⟨⟨some weatherData, now⟩, RenderOutput.cards (renderWeather weatherData),
        some successMsg, 1⟩
  | none =>
      match s.weatherCache with
      | some cached => ⟨s, RenderOutput.cards (renderWeather cached), some degradedMsg, 1⟩
      | none => ⟨s, RenderOutput.fallbackMessage, some degradedMsg, 1⟩

/-- `WeatherManager.fetchWeather`: if a cache entry exists and is younger than
`WEATHER_CACHE_TIME`, render it and return without touching the network;
otherwise fetch and handle success/failure as in `fetchAndRender`. -/
def fetchWeather (now : Nat) (transport : Option NEAData) (dayOf dateOf : Nat → String)
    (s : WeatherState) : FetchResult :=
  if s.weatherCache.isSome ∧ now - s.lastFetchTime < WEATHER_CACHE_TIME then
    ⟨s, RenderOutput.cards (renderWeather (s.weatherCache.getD [])), none, 0⟩
  else
    fetchAndRender now transport dayOf dateOf s

/-- Timer semantics of `debounce(func, delay)` for a nondecreasing list of call
times: a call at `t` schedules `func` at `t + delay`; the next call clears that
timer iff it arrives strictly before the scheduled time. The result lists the
call times whose scheduled execution actually fires. -/
def debouncedRuns (delay : Nat) : List Nat → List Nat
  | [] => []
  | [t] => [t]
  | t1 :: t2 :: rest =>
      if t2 < t1 + delay then debouncedRuns delay (t2 :: rest)
      else t1 :: debouncedRuns delay (t2 :: rest)

/-- Claim C1 is false as stated: the raw forecast "Thundery rain" contains both
"thunder" and "rain" (case-insensitively), yet `mapWeatherCondition` yields
"Rainy", not "Thundery", because the source checks "rain" before "thunder". -/
theorem C1_counterexample :
    includes "thunder" (toLowerChars "Thundery rain") = true
    ∧ includes "rain" (toLowerChars "Thundery rain") = true
    ∧ mapWeatherCondition "Thundery rain" = "Rainy"
    ∧ mapWeatherCondition "Thundery rain" ≠ "Thundery" := by
  refine ⟨by decide, by decide, by decide, by decide⟩

/-- Claim C1, amended: for every raw forecast string containing both "thunder"
and "rain" (case-insensitive) and none of the keywords checked earlier by
`mapWeatherCondition` (sunny, fine, partly, cloudy, overcast), the condition is
"Rainy" and never "Thundery": the "rain" rule takes priority over the "thunder"
rule. -/
theorem C1_rain_beats_thunder (f : String)
    (_hth : includes "thunder" (toLowerChars f) = true)
    (hra : includes "rain" (toLowerChars f) = true)
    (h1 : includes "sunny" (toLowerChars f) = false)
    (h2 : includes "fine" (toLowerChars f) = false)
    (h3 : includes "partly" (toLowerChars f) = false)
    (h4 : includes "cloudy" (toLowerChars f) = false)
    (h5 : includes "overcast" (toLowerChars f) = false) :
    mapWeatherCondition f = "Rainy" ∧ mapWeatherCondition f ≠ "Thundery" := by
  unfold mapWeatherCondition
  simp [h1, h2, h3, h4, h5, hra]

/-- Witness for `C1_rain_beats_thunder` at the concrete input "Thundery rain". -/
theorem C1_rain_beats_thunder_witness :
    mapWeatherCondition "Thundery rain" = "Rainy"
    ∧ mapWeatherCondition "Thundery rain" ≠ "Thundery" :=
  C1_rain_beats_thunder "Thundery rain" (by decide) (by decide) (by decide) (by decide)
    (by decide) (by decide) (by decide)

/-- Claim C2 is false as stated: starting from the initial state (no cache) with
a failing transport, `fetchWeather` renders the single fallback placeholder card
(`renderWeatherFallback`), not the 4 simulated entries of
`getSimulatedWeather`. -/
theorem C2_counterexample :
    (fetchWeather 0 none (fun _ => "") (fun _ => "") ⟨none, 0⟩).rendered
      = RenderOutput.fallbackMessage
    ∧ (fetchWeather 0 none (fun _ => "") (fun _ => "") ⟨none, 0⟩).rendered
      ≠ RenderOutput.cards (renderWeather getSimulatedWeather) := by
  refine ⟨rfl, by decide⟩

/-- Claim C2, amended: for every refresh execution in which the transport fails
and no cache entry exists, `fetchWeather` leaves the state unchanged, renders
the single placeholder message card, emits the degraded-status notification and
performs one network request; the simulated entries are not what is rendered on
this path. -/
theorem C2_failure_no_cache_placeholder (now : Nat) (dayOf dateOf : Nat → String)
    (s : WeatherState) (hc : s.weatherCache = none) :
    fetchWeather now none dayOf dateOf s
      = ⟨s, RenderOutput.fallbackMessage, some degradedMsg, 1⟩
    ∧ RenderOutput.fallbackMessage ≠ RenderOutput.cards (renderWeather getSimulatedWeather) := by
  unfold fetchWeather fetchAndRender
  simp [hc]

/-- Witness for `C2_failure_no_cache_placeholder` at the initial state. -/
theorem C2_failure_no_cache_placeholder_witness :
    fetchWeather 7 none (fun _ => "") (fun _ => "") ⟨none, 0⟩
      = ⟨⟨none, 0⟩, RenderOutput.fallbackMessage, some degradedMsg, 1⟩
    ∧ RenderOutput.fallbackMessage ≠ RenderOutput.cards (renderWeather getSimulatedWeather) :=
  C2_failure_no_cache_placeholder 7 (fun _ => "") (fun _ => "") ⟨none, 0⟩ rfl

/-- Claim C3 is false as stated: with no cache, a successful response whose
`items` list is empty takes the success path: the notification is the success
message, not the degraded message, and the fallback chain is not entered. -/
theorem C3_counterexample :
    (fetchWeather 0 (some ⟨some []⟩) (fun _ => "") (fun _ => "") ⟨none, 0⟩).notification
      = some successMsg
    ∧ (some successMsg : Option String) ≠ some degradedMsg
    ∧ (fetchWeather 0 (some ⟨some []⟩) (fun _ => "") (fun _ => "") ⟨none, 0⟩).rendered
      ≠ RenderOutput.fallbackMessage := by
  refine ⟨rfl, by decide, by decide⟩

/-- Claim C3, amended: for every refresh execution with no cache in which the
HTTP response succeeds but the body's `items` collection is missing or empty,
`fetchWeather` does not enter the failure path: `parseNEAResponse` returns the
4 simulated entries, which are cached with the current timestamp, rendered, and
announced with the success notification (the degraded notification and the
stale-cache-then-placeholder fallback chain are not used). -/
theorem C3_empty_items_success_path (now : Nat) (dayOf dateOf : Nat → String)
    (s : WeatherState) (d : NEAData) (hc : s.weatherCache = none)
    (hempty : d.items = none ∨ d.items = some []) :
    fetchWeather now (some d) dayOf dateOf s
      = ⟨⟨some getSimulatedWeather, now⟩,
          RenderOutput.cards (renderWeather getSimulatedWeather), some successMsg, 1⟩
    ∧ successMsg ≠ degradedMsg := by
  unfold fetchWeather fetchAndRender parseNEAResponse
  rcases hempty with he | he <;> simp [hc, he] <;> decide

/-- Witness for `C3_empty_items_success_path` with an empty `items` list. -/
theorem C3_empty_items_success_path_witness :
    fetchWeather 11 (some ⟨some []⟩) (fun _ => "") (fun _ => "") ⟨none, 0⟩
      = ⟨⟨some getSimulatedWeather, 11⟩,
          RenderOutput.cards (renderWeather getSimulatedWeather), some successMsg, 1⟩
    ∧ successMsg ≠ degradedMsg :=
  C3_empty_items_success_path 11 (fun _ => "") (fun _ => "") ⟨none, 0⟩ ⟨some []⟩ rfl
    (Or.inr rfl)

/-- Claim C4 is false as stated: on "rain storm" the condition is "Rainy" (the
"rain" rule fires in `mapWeatherCondition`) while the emoji is the thunder glyph
(the "storm" rule fires first in `getWeatherEmoji`), so condition and emoji are
not chosen by the same rule: Rainy is paired with ⛈️ instead of 🌧️. -/
theorem C4_counterexample :
    mapWeatherCondition "rain storm" = "Rainy"
    ∧ getWeatherEmoji "rain storm" = "⛈️"
    ∧ ("⛈️" : String) ≠ "🌧️" := by
  refine ⟨by decide, by decide, by decide⟩

/-- Claim C4, amended: the two keyword lists agree except in the relative order
of the rain rule (checked fourth in `mapWeatherCondition`, sixth in
`getWeatherEmoji`), so for every forecast string that does not contain "rain"
together with "thunder" or "storm" (case-insensitive), the condition/emoji pair
lies in the correspondence table Sunny/☀️, Partly Cloudy/⛅, Cloudy/☁️,
Thundery/⛈️, Showers/🌧️, Rainy/🌧️, Windy/💨, original text/🌤️. -/
theorem C4_correspondence (f : String)
    (h : (includes "rain" (toLowerChars f)
          && (includes "thunder" (toLowerChars f) || includes "storm" (toLowerChars f)))
        = false) :
    (mapWeatherCondition f, getWeatherEmoji f) ∈
      [("Sunny", "☀️"), ("Partly Cloudy", "⛅"), ("Cloudy", "☁️"), ("Thundery", "⛈️"),
       ("Showers", "🌧️"), ("Rainy", "🌧️"), ("Windy", "💨"), (f, "🌤️")] := by
  unfold mapWeatherCondition getWeatherEmoji
  split_ifs <;> simp_all

/-- Witness for `C4_correspondence` at the concrete input "Cloudy". -/
theorem C4_correspondence_witness :
    (mapWeatherCondition "Cloudy", getWeatherEmoji "Cloudy") ∈
      [("Sunny", "☀️"), ("Partly Cloudy", "⛅"), ("Cloudy", "☁️"), ("Thundery", "⛈️"),
       ("Showers", "🌧️"), ("Rainy", "🌧️"), ("Windy", "💨"), ("Cloudy", "🌤️")] :=
  C4_correspondence "Cloudy" (by decide)

/-- Claim C5: a refresh strictly less than `WEATHER_CACHE_TIME` ms after the
last successful fetch, with a cache entry present, performs no network request,
leaves the state unchanged and renders the cached entries; a refresh at least
`WEATHER_CACHE_TIME` ms after the last fetch performs exactly one network
request. -/
theorem C5_cache_freshness (now : Nat) (transport : Option NEAData)
    (dayOf dateOf : Nat → String) (s : WeatherState) (c : List ForecastDay) :
    (s.weatherCache = some c → now - s.lastFetchTime < WEATHER_CACHE_TIME →
      fetchWeather now transport dayOf dateOf s
        = ⟨s, RenderOutput.cards (renderWeather c), none, 0⟩)
    ∧ (WEATHER_CACHE_TIME ≤ now - s.lastFetchTime →
      (fetchWeather now transport dayOf dateOf s).networkRequests = 1) := by
  constructor
  · intro hc hfresh
    unfold fetchWeather
    simp [hc, hfresh]
  · intro hstale
    have hnot : ¬ (s.weatherCache.isSome = true
        ∧ now - s.lastFetchTime < WEATHER_CACHE_TIME) := by
      rintro ⟨-, hlt⟩
      exact Nat.lt_irrefl _ (Nat.lt_of_le_of_lt hstale hlt)
    unfold fetchWeather
    rw [if_neg hnot]
    unfold fetchAndRender
    cases transport with
    | some d => simp
    | none =>
        obtain ⟨wc, lt⟩ := s
        cases wc <;> simp

/-- Witness for `C5_cache_freshness`: the fresh-cache conclusion at 1 ms of age,
and the one-request conclusion at 600005 ms of age. -/
theorem C5_cache_freshness_witness :
    fetchWeather 1 none (fun _ => "") (fun _ => "") ⟨some getSimulatedWeather, 0⟩
      = ⟨⟨some getSimulatedWeather, 0⟩,
          RenderOutput.cards (renderWeather getSimulatedWeather), none, 0⟩
    ∧ (fetchWeather 600005 none (fun _ => "") (fun _ => "")
        ⟨some getSimulatedWeather, 0⟩).networkRequests = 1 :=
  ⟨(C5_cache_freshness 1 none (fun _ => "") (fun _ => "")
      ⟨some getSimulatedWeather, 0⟩ getSimulatedWeather).1 rfl (by decide),
   (C5_cache_freshness 600005 none (fun _ => "") (fun _ => "")
      ⟨some getSimulatedWeather, 0⟩ getSimulatedWeather).2 (by decide)⟩

/-- Claim C6: when the transport fails and a (necessarily stale, since a fetch
was attempted) cache entry exists, `fetchWeather` renders the cached entries,
emits the degraded-status notification, leaves the state unchanged, and does not
render the fallback placeholder. -/
theorem C6_stale_cache_on_failure (now : Nat) (dayOf dateOf : Nat → String)
    (s : WeatherState) (c : List ForecastDay) (hc : s.weatherCache = some c)
    (hstale : WEATHER_CACHE_TIME ≤ now - s.lastFetchTime) :
    fetchWeather now none dayOf dateOf s
      = ⟨s, RenderOutput.cards (renderWeather c), some degradedMsg, 1⟩
    ∧ RenderOutput.cards (renderWeather c) ≠ RenderOutput.fallbackMessage := by
  have hnot : ¬ (s.weatherCache.isSome = true
      ∧ now - s.lastFetchTime < WEATHER_CACHE_TIME) := by
    rintro ⟨-, hlt⟩
    exact Nat.lt_irrefl _ (Nat.lt_of_le_of_lt hstale hlt)
  unfold fetchWeather fetchAndRender
  rw [if_neg hnot]
  simp [hc]

/-- Witness for `C6_stale_cache_on_failure` with a 600000 ms old cache. -/
theorem C6_stale_cache_on_failure_witness :
    fetchWeather 600000 none (fun _ => "") (fun _ => "") ⟨some getSimulatedWeather, 0⟩
      = ⟨⟨some getSimulatedWeather, 0⟩,
          RenderOutput.cards (renderWeather getSimulatedWeather), some degradedMsg, 1⟩
    ∧ RenderOutput.cards (renderWeather getSimulatedWeather) ≠ RenderOutput.fallbackMessage :=
  C6_stale_cache_on_failure 600000 (fun _ => "") (fun _ => "")
    ⟨some getSimulatedWeather, 0⟩ getSimulatedWeather rfl (by decide)

/-- Claim C7: every `fetchWeather` execution either leaves the state (both the
cached data and the fetch timestamp) completely unchanged, or replaces both
fields together with the data parsed from this fetch and the `now` captured in
this call. -/
theorem C7_cache_atomic (now : Nat) (transport : Option NEAData)
    (dayOf dateOf : Nat → String) (s : WeatherState) :
    (fetchWeather now transport dayOf dateOf s).state = s
    ∨ ∃ d, transport = some d
        ∧ (fetchWeather now transport dayOf dateOf s).state
          = ⟨some (parseNEAResponse dayOf dateOf d), now⟩ := by
  unfold fetchWeather
  split
  · exact Or.inl rfl
  · unfold fetchAndRender
    cases transport with
    | some d => exact Or.inr ⟨d, rfl, rfl⟩
    | none =>
        obtain ⟨wc, lt⟩ := s
        cases wc <;> exact Or.inl rfl

/-- Claim C8 evidence: rendering the simulated forecast produces one card per
record whose aria heading, date, emoji and condition come from the record, but
whose forecast line is the literal placeholder text of the template, not the
record's raw forecast string — the template's last line is not interpolated. -/
theorem C8_forecast_line_literal :
    (renderWeather getSimulatedWeather).map RenderedCard.forecastLine
      = [forecastPlaceholder, forecastPlaceholder, forecastPlaceholder, forecastPlaceholder]
    ∧ (renderWeather getSimulatedWeather).map RenderedCard.forecastLine
      ≠ getSimulatedWeather.map ForecastDay.forecast
    ∧ (renderWeather getSimulatedWeather).length = getSimulatedWeather.length
    ∧ (renderWeather getSimulatedWeather).map RenderedCard.heading
      = getSimulatedWeather.map ForecastDay.day
    ∧ (renderWeather getSimulatedWeather).map RenderedCard.conditionText
      = getSimulatedWeather.map ForecastDay.condition
    ∧ (renderWeather getSimulatedWeather).map RenderedCard.emojiText
      = getSimulatedWeather.map ForecastDay.emoji := by
  refine ⟨rfl, by decide, rfl, rfl, rfl, rfl⟩

/-- Claim C9: two calls to the debounced refresh entry point whose gap is
strictly inside the `DEBOUNCE_DELAY` window result in exactly one executed
fetch, the one scheduled by the last call. -/
theorem C9_debounce_coalesces (t1 t2 : Nat) (h1 : t1 ≤ t2)
    (h2 : t2 - t1 < DEBOUNCE_DELAY) :
    debouncedRuns DEBOUNCE_DELAY [t1, t2] = [t2] := by
  have hlt : t2 < t1 + DEBOUNCE_DELAY := by omega
  simp [debouncedRuns, hlt]

/-- Witness for `C9_debounce_coalesces` with calls at 0 ms and 50 ms. -/
theorem C9_debounce_coalesces_witness :
    debouncedRuns DEBOUNCE_DELAY [0, 50] = [50] :=
  C9_debounce_coalesces 0 50 (by decide) (by decide)

/-- Claim C10: with no cache, a 2xx response whose `items` collection is missing
or empty makes `fetchWeather` store the 4 simulated entries in the cache with
the current timestamp, render them and emit the success notification; any
refresh strictly less than `WEATHER_CACHE_TIME` ms later renders the simulated
data from the cache with no network request. -/
theorem C10_empty_items_caches_simulated (now now2 : Nat)
    (dayOf dateOf dayOf2 dateOf2 : Nat → String) (transport2 : Option NEAData)
    (s : WeatherState) (d : NEAData) (hc : s.weatherCache = none)
    (hempty : d.items = none ∨ d.items = some [])
    (hfresh : now2 - now < WEATHER_CACHE_TIME) :
    fetchWeather now (some d) dayOf dateOf s
      = ⟨⟨some getSimulatedWeather, now⟩,
          RenderOutput.cards (renderWeather getSimulatedWeather), some successMsg, 1⟩
    ∧ fetchWeather now2 transport2 dayOf2 dateOf2 ⟨some getSimulatedWeather, now⟩
      = ⟨⟨some getSimulatedWeather, now⟩,
          RenderOutput.cards (renderWeather getSimulatedWeather), none, 0⟩ := by
  constructor
  · unfold fetchWeather fetchAndRender parseNEAResponse
    rcases hempty with he | he <;> simp [hc, he]
  · unfold fetchWeather
    simp [hfresh]

/-- Witness for `C10_empty_items_caches_simulated`: a body with no `items` key
at time 0, followed by a refresh at 200 ms. -/
theorem C10_empty_items_caches_simulated_witness :
    fetchWeather 0 (some ⟨none⟩) (fun _ => "") (fun _ => "") ⟨none, 0⟩
      = ⟨⟨some getSimulatedWeather, 0⟩,
          RenderOutput.cards (renderWeather getSimulatedWeather), some successMsg, 1⟩
    ∧ fetchWeather 200 none (fun _ => "") (fun _ => "") ⟨some getSimulatedWeather, 0⟩
      = ⟨⟨some getSimulatedWeather, 0⟩,
          RenderOutput.cards (renderWeather getSimulatedWeather), none, 0⟩ :=
  C10_empty_items_caches_simulated 0 200 (fun _ => "") (fun _ => "") (fun _ => "")
    (fun _ => "") none ⟨none, 0⟩ ⟨none⟩ rfl (Or.inl rfl) (by decide)

end ShoreSquad
